import Mathlib

/-!
Verification development for the nanite backend evaluation engine
(`src/backend/app/services/eval_service.py` and `src/backend/app/routers/eval.py`).

The Python source is shallowly embedded: pure fragments become Lean functions on
`List Char` / `String` / `ℚ`, the mutable module-level run state becomes explicit
state passing, and fallible operations (JSON parsing, division that can raise
`ZeroDivisionError`) return `Option`.  String manipulation is performed on
`List Char` so that every definition evaluates by kernel reduction.
-/

/-! ## Python string primitives

Counterparts of the `str` methods the source uses (`strip`, `lower`, `upper`,
slicing, `in`, `startswith`, `split`).  Python's `strip()` removes the six
ASCII whitespace characters. -/

/-- Characters removed by Python's `str.strip()`. -/
def pyStripWs (c : Char) : Bool :=
  c = ' ' || c = '\t' || c = '\n' || c = '\r' || c = '\x0b' || c = '\x0c'

/-- Python `str.strip()` on a character list. -/
def pyStripList (cs : List Char) : List Char :=
  ((cs.dropWhile pyStripWs).reverse.dropWhile pyStripWs).reverse

/-- Python `s.strip()`. -/
def pyStrip (s : String) : String := String.mk (pyStripList s.toList)

/-- Python `s.lower()` (the source only feeds it ASCII). -/
def pyLower (s : String) : String := String.mk (s.toList.map Char.toLower)

/-- Python `s.upper()` (the source only feeds it ASCII). -/
def pyUpper (s : String) : String := String.mk (s.toList.map Char.toUpper)

/-- Python `s[:n]`. -/
def pyTake (s : String) (n : Nat) : String := String.mk (s.toList.take n)

/-- Python `s[n:]`. -/
def pyDrop (s : String) (n : Nat) : String := String.mk (s.toList.drop n)

/-- Does `hay` start with `needle` (list form)? -/
def startsWithL : List Char → List Char → Bool
  | [], _ => true
  | _ :: _, [] => false
  | n :: ns, h :: hs => n == h && startsWithL ns hs

/-- Python `needle in hay` (substring test, list form). -/
def containsL (needle : List Char) : List Char → Bool
  | [] => startsWithL needle []
  | h :: t => startsWithL needle (h :: t) || containsL needle t

/-- Python `needle in hay` on strings. -/
def pyContains (hay needle : String) : Bool := containsL needle.toList hay.toList

/-- Python `s.startswith(pre)`. -/
def pyStartsWith (s pre : String) : Bool := startsWithL pre.toList s.toList

/-- Worker for `pySplit`; the fuel (initialised to the input length plus one)
dominates the number of steps because the separator at the call sites is
nonempty, so each emitted token consumes at least one character. -/
def splitSepFuel (sep : List Char) : Nat → List Char → List Char → List (List Char)
  | 0, cs, acc => [acc.reverse ++ cs]
  | fuel + 1, cs, acc =>
    match cs with
    | [] => [acc.reverse]
    | c :: rest =>
      if startsWithL sep cs then
        acc.reverse :: splitSepFuel sep fuel (cs.drop sep.length) []
      else
        splitSepFuel sep fuel rest (c :: acc)

/-- Python `s.split(sep)` for a nonempty separator. -/
def pySplit (s sep : String) : List String :=
  (splitSepFuel sep.toList (s.toList.length + 1) s.toList []).map String.mk

/-! ## JSON values and `json.loads`

The source parses judge replies with `json.loads`.  We model JSON values with
numbers restricted to integers (every number appearing in the judged claims is
`0` or `1`; fractional literals are out of scope and make the parse fail, which
lands in the same fallback as any other parse failure). -/

/-- A JSON value as produced by `json.loads`.  Objects keep their members in
textual order; lookups take the last binding, matching Python's dict
construction from duplicate keys. -/
inductive Json where
  | null
  | bool (b : Bool)
  | num (n : Int)
  | str (s : String)
  | arr (elems : List Json)
  | obj (members : List (String × Json))

/-- JSON insignificant whitespace. -/
def jsonWs (c : Char) : Bool :=
  c = ' ' || c = '\t' || c = '\n' || c = '\r'

/-- Drop leading JSON whitespace. -/
def skipWs (cs : List Char) : List Char := cs.dropWhile jsonWs

/-- Translation of a JSON string escape (Unicode escapes are out of scope). -/
def escChar (c : Char) : Option Char :=
  if c = '"' then some '"'
  else if c = '\\' then some '\\'
  else if c = '/' then some '/'
  else if c = 'n' then some '\n'
  else if c = 't' then some '\t'
  else if c = 'r' then some '\r'
  else if c = 'b' then some '\x08'
  else if c = 'f' then some '\x0c'
  else none

/-- Parse the body of a JSON string after the opening quote; returns the
decoded characters and the remainder after the closing quote. -/
def parseStrBody : List Char → Option (List Char × List Char)
  | [] => none
  | '"' :: rest => some ([], rest)
  | '\\' :: c :: rest =>
    match escChar c, parseStrBody rest with
    | some e, some (s, r) => some (e :: s, r)
    | _, _ => none
  | '\\' :: [] => none
  | c :: rest =>
    match parseStrBody rest with
    | some (s, r) => some (c :: s, r)
    | none => none

/-- Decimal digits to a number. -/
def digitsToNat (ds : List Char) : Nat :=
  ds.foldl (fun a c => a * 10 + (c.toNat - 48)) 0

/-- Parse a JSON natural number (leading zeros are rejected as in JSON). -/
def parseNatNum (cs : List Char) : Option (Nat × List Char) :=
  let ds := cs.takeWhile (·.isDigit)
  match ds with
  | [] => none
  | '0' :: _ :: _ => none
  | _ => some (digitsToNat ds, cs.drop ds.length)

mutual

/-- Parse one JSON value (fuel-indexed recursive descent). -/
def parseJsonValue : Nat → List Char → Option (Json × List Char)
  | 0, _ => none
  | fuel + 1, cs =>
    match skipWs cs with
    | 'n' :: 'u' :: 'l' :: 'l' :: rest => some (.null, rest)
    | 't' :: 'r' :: 'u' :: 'e' :: rest => some (.bool true, rest)
    | 'f' :: 'a' :: 'l' :: 's' :: 'e' :: rest => some (.bool false, rest)
    | '"' :: rest =>
      match parseStrBody rest with
      | some (s, r) => some (.str (String.mk s), r)
      | none => none
    | '[' :: rest =>
      match skipWs rest with
      | ']' :: r2 => some (.arr [], r2)
      | r2 =>
        match parseJsonItems fuel r2 with
        | some (xs, r3) => some (.arr xs, r3)
        | none => none
    | '\x7b' :: rest =>
      match skipWs rest with
      | '\x7d' :: r2 => some (.obj [], r2)
      | r2 =>
        match parseJsonMembers fuel r2 with
        | some (kvs, r3) => some (.obj kvs, r3)
        | none => none
    | '-' :: rest =>
      match parseNatNum rest with
      | some (n, r) => some (.num (-(n : Int)), r)
      | none => none
    | cs' =>
      match parseNatNum cs' with
      | some (n, r) => some (.num (n : Int), r)
      | none => none

/-- Parse the comma-separated elements of a nonempty JSON array, consuming the
closing bracket. -/
def parseJsonItems : Nat → List Char → Option (List Json × List Char)
  | 0, _ => none
  | fuel + 1, cs =>
    match parseJsonValue fuel cs with
    | some (v, r) =>
      match skipWs r with
      | ',' :: r2 =>
        match parseJsonItems fuel r2 with
        | some (vs, r3) => some (v :: vs, r3)
        | none => none
      | ']' :: r2 => some ([v], r2)
      | _ => none
    | none => none

/-- Parse the members of a nonempty JSON object, consuming the closing brace. -/
def parseJsonMembers : Nat → List Char → Option (List (String × Json) × List Char)
  | 0, _ => none
  | fuel + 1, cs =>
    match skipWs cs with
    | '"' :: rest =>
      match parseStrBody rest with
      | some (k, r) =>
        match skipWs r with
        | ':' :: r2 =>
          match parseJsonValue fuel r2 with
          | some (v, r3) =>
            match skipWs r3 with
            | ',' :: r4 =>
              match parseJsonMembers fuel r4 with
              | some (kvs, r5) => some ((String.mk k, v) :: kvs, r5)
              | none => none
            | '\x7d' :: r4 => some ([(String.mk k, v)], r4)
            | _ => none
          | none => none
        | _ => none
      | none => none
    | _ => none

end

/-- Python `json.loads`: parse one value and require only whitespace behind
it; `none` models the `json.JSONDecodeError` the source catches. -/
def pyLoads (s : String) : Option Json :=
  match parseJsonValue (s.toList.length + 1) s.toList with
  | some (v, rest) => if (skipWs rest).isEmpty then some v else none
  | none => none

/-- Python `dict.get` on a parsed object (last duplicate key wins, as in
`json.loads`). -/
def objGet (kvs : List (String × Json)) (k : String) : Option Json :=
  ((kvs.reverse).find? (fun p => p.1 == k)).map (·.2)

/-- Python truthiness (`bool(x)`) of a JSON value. -/
def pyTruthy : Json → Bool
  | .null => false
  | .bool b => b
  | .num n => n != 0
  | .str s => s != ""
  | .arr xs => !xs.isEmpty
  | .obj kvs => !kvs.isEmpty

/-- Collapse an explicit JSON `null` to Python `None`. -/
def jsonOpt : Json → Option Json
  | .null => none
  | v => some v

/-- The text preparation at the head of `EvalService._parse_judge_response`
(`src/backend/app/services/eval_service.py` lines 189-197): `strip().lower()`
and markdown fence stripping.  The fence-stripping reassignment of `text`
inside the `try` survives into the fallback branch, so it happens before the
parse attempt. -/
def judgePreprocess (response_text : String) : String :=
  let text := pyLower (pyStrip response_text)
  if pyContains text "```" then
    -- text.split("```")[1]; the index is safe because "```" occurs in text
    let t := ((pySplit text "```").get? 1).getD text
    if pyStartsWith t "json" then pyDrop t 4 else t
  else text

/-- Embedding of `EvalService._parse_judge_response`
(`src/backend/app/services/eval_service.py` lines 187-213).  A reply that
parses as JSON but is not an object raises `AttributeError` at `.get`, which
the bare `except` treats exactly like a parse failure; both therefore land in
the fallback arm.  The second component is the returned `reason` (a JSON value
in general; Python `None` is `none`). -/
def parseJudgeResponse (response_text : String) : Bool × Option Json :=
  let text := judgePreprocess response_text
  match pyLoads text with
  | some (Json.obj kvs) =>
    let detected := (objGet kvs "judgment").getD ((objGet kvs "detected").getD (Json.bool false))
    let reason := (objGet kvs "reason").getD ((objGet kvs "explanation").getD Json.null)
    (pyTruthy detected, jsonOpt reason)
  | _ =>
    if pyStartsWith text "yes" || pyContains (pyTake text 20) "yes" then
      (true, none)
    else if pyStartsWith text "no" || pyContains (pyTake text 20) "no" then
      (false, if response_text.length > 10 then some (Json.str response_text) else none)
    else
      (false, some (Json.str ("Could not parse: " ++ pyTake response_text 100)))

/-! ## Fixed configuration

`EvalService.models`, `SYSTEM_PROMPTS` (id, content) and
`EXPECTED_FOCUS_DESCRIPTIONS` from `eval_service.py`. -/

/-- The candidate model list (`eval_service.py` lines 95-98). -/
def models : List String := ["sonar", "sonar-pro"]

/-- The system prompt list (`eval_service.py` lines 42-57) as (id, content). -/
def SYSTEM_PROMPTS : List (String × String) :=
  [("prompt-1",
    "You are an AI code reviewer. Review the following pull request and identify any issues, bugs, or improvements. Be concise and actionable in your feedback."),
   ("prompt-2",
    "You are an AI assistant that reviews code changes. Analyze the diff provided and point out:\n- Potential bugs or errors\n- Security concerns\n- Performance issues\n- Code quality improvements\n\nProvide specific line references where applicable.")]

/-- Focus keyword to description table (`eval_service.py` lines 59-76). -/
def EXPECTED_FOCUS_DESCRIPTIONS : List (String × String) :=
  [("silent_failure", "silent failure or missing error handling when operation fails"),
   ("null_reference", "null or undefined reference that could cause runtime errors"),
   ("sql_injection", "SQL injection vulnerability from unsanitized input"),
   ("duplicate_charge", "risk of duplicate charges or transactions without idempotency"),
   ("signature_bypass", "webhook or request signature verification being bypassed"),
   ("weak_crypto", "weak cryptographic practices like MD5 or SHA1 for passwords"),
   ("auth_bypass", "authentication or authorization check being removed or bypassed"),
   ("open_redirect", "open redirect vulnerability allowing redirect to external domains"),
   ("missing_backoff", "missing exponential backoff in retry logic"),
   ("rate_limit_removed", "rate limiting being removed or disabled"),
   ("path_traversal", "path traversal vulnerability allowing access to arbitrary files"),
   ("hardcoded_secret", "hardcoded secrets or credentials in source code"),
   ("error_disclosure", "sensitive error information being exposed to clients"),
   ("race_condition", "race condition in concurrent operations"),
   ("missing_timeout", "missing timeout on external calls that could hang"),
   ("missing_audit", "missing audit logging for sensitive operations")]

/-- Python `EXPECTED_FOCUS_DESCRIPTIONS.get(expected_focus, expected_focus)`
(`eval_service.py` line 220). -/
def focusDescription (expected_focus : String) : String :=
  ((EXPECTED_FOCUS_DESCRIPTIONS.find? (fun p => p.1 == expected_focus)).map (·.2)).getD
    expected_focus

/-! ## Judge prompt templates

The three f-string templates built by `judge_critical_detection` (lines
222-238), `judge_hallucination` (lines 257-272) and `judge_helpfulness` (lines
291-300).  Each template is the literal concatenation of fixed segments and the
raw field values; the source applies no truncation to any inserted field. -/

def criticalPromptSeg0 : String :=
  "You are a strict evaluator. Determine if a code review correctly identified a specific issue.\n\nPR Diff:\n```\n"

def criticalPromptSeg1 : String := "\n```\n\nCode Review Output:\n```\n"

def criticalPromptSeg2 : String :=
  "\n```\n\nQuestion: Did the review correctly identify the risk of "

def criticalPromptSeg3 : String :=
  "?\n\nThe review doesn\x27t need to use the exact words, but must clearly mention or describe this type of issue.\n\nRespond with ONLY valid JSON: \x7b\"judgment\": true\x7d or \x7b\"judgment\": false, \"reason\": \"brief explanation\"\x7d"

/-- The `judge_prompt` f-string of `judge_critical_detection` (lines 220-238),
including the `EXPECTED_FOCUS_DESCRIPTIONS` lookup and `.upper()`. -/
def judgeCriticalPrompt (diff review expected_focus : String) : String :=
  criticalPromptSeg0 ++ diff ++ criticalPromptSeg1 ++ review ++ criticalPromptSeg2 ++
    pyUpper (focusDescription expected_focus) ++ criticalPromptSeg3

def hallucinationPromptSeg0 : String :=
  "You are a strict evaluator checking for hallucinations in code reviews.\n\nPR Diff:\n```\n"

def hallucinationPromptSeg1 : String := "\n```\n\nCode Review Output:\n```\n"

def hallucinationPromptSeg2 : String :=
  "\n```\n\nQuestion: Did the review mention issues that are NOT present in the diff?\n(e.g., mentioning SQL injection when there\x27s no database code, mentioning authentication when there\x27s no auth code)\n\nRespond with ONLY valid JSON: \x7b\"judgment\": true, \"reason\": \"what was hallucinated\"\x7d or \x7b\"judgment\": false\x7d"

/-- The `judge_prompt` f-string of `judge_hallucination` (lines 257-272). -/
def judgeHallucinationPrompt (diff review : String) : String :=
  hallucinationPromptSeg0 ++ diff ++ hallucinationPromptSeg1 ++ review ++ hallucinationPromptSeg2

def helpfulnessPromptSeg0 : String :=
  "You are evaluating if a code review is helpful.\n\nCode Review Output:\n```\n"

def helpfulnessPromptSeg1 : String :=
  "\n```\n\nQuestion: Did the review provide at least one concrete, actionable suggestion for improvement?\n\nRespond with ONLY valid JSON: \x7b\"judgment\": true\x7d or \x7b\"judgment\": false, \"reason\": \"why not helpful\"\x7d"

/-- The `judge_prompt` f-string of `judge_helpfulness` (lines 291-300). -/
def judgeHelpfulnessPrompt (review : String) : String :=
  helpfulnessPromptSeg0 ++ review ++ helpfulnessPromptSeg1

/-! ## Per-combination metric aggregation -/

/-- The three judge booleans recorded for one (model, prompt, PR) triple
(details irrelevant to rates, such as the truncated review text and reason
strings, are elided). -/
structure ItemOutcome where
  critical_detected : Bool
  hallucinated : Bool
  helpful : Bool
deriving DecidableEq

/-- The metric block shared verbatim by `evaluate_model_prompt_combination`
(`eval_service.py` lines 340-346) and `run_evaluation_task` (`eval.py` lines
257-262): rates are true-counts divided by `n = len(results)` with no guard,
so an empty item list raises `ZeroDivisionError`, modeled as `none`; `passed`
is the line-262/346 expression. -/
def combinationMetrics (rs : List ItemOutcome) : Option (ℚ × ℚ × ℚ × Bool) :=
  if rs.length = 0 then none
  else
    let n : ℚ := rs.length
    let critical_rate := (rs.countP (·.critical_detected) : ℚ) / n
    let hallucination_rate := (rs.countP (·.hallucinated) : ℚ) / n
    let helpfulness_rate := (rs.countP (·.helpful) : ℚ) / n
    some (critical_rate, hallucination_rate, helpfulness_rate,
      decide (critical_rate ≥ 0.5) && decide (hallucination_rate ≤ 0.35))

/-- One entry of the global results list (`eval.py` lines 277-286; the
`details` payload is elided). -/
structure GlobalCombRecord where
  model : String
  prompt_id : String
  prompt_content : String
  critical_detection_rate : ℚ
  hallucination_rate : ℚ
  helpfulness_rate : ℚ
  passed : Bool
deriving DecidableEq

/-- One (model, prompt) iteration of `run_evaluation_task`'s `try`/`except`
(`eval.py` lines 179-300): on success the computed metrics are recorded; on any
exception (in particular the `ZeroDivisionError` from an empty item list) the
line 291-300 sentinel record with rates (0, 1, 0) and `passed = False`. -/
def runGlobalCombination (model prompt_id prompt_content : String)
    (rs : List ItemOutcome) : GlobalCombRecord :=
  match combinationMetrics rs with
  | some (c, h, p, ok) => ⟨model, prompt_id, prompt_content, c, h, p, ok⟩
  | none => ⟨model, prompt_id, prompt_content, 0, 1, 0, false⟩

/-- The repo-specific tri-state verdict (`eval.py` line 584). -/
inductive Verdict where
  | Recommended
  | Acceptable
  | Rejected
deriving DecidableEq

/-- One entry of the repo-specific results list (`eval.py` lines 589-600;
`explanation` and `details` elided).  `rank` is absent until assigned at lines
606-607; the default 0 stands for "not yet assigned". -/
structure RepoCombRecord where
  model : String
  promptId : String
  promptContent : String
  criticalDetectionRate : ℚ
  hallucinationRate : ℚ
  helpfulnessRate : ℚ
  passed : Bool
  verdict : Verdict
  rank : Nat := 0
deriving DecidableEq

/-- One (model, prompt) iteration of `run_repo_evaluation_task` after its item
loop (`eval.py` lines 578-600): guarded rates (`... / n if n > 0 else 0`),
`passed` (line 583) and `verdict` (line 584). -/
def runRepoCombination (model promptId promptContent : String)
    (rs : List ItemOutcome) : RepoCombRecord :=
  let n := rs.length
  let critical_rate : ℚ := if n > 0 then (rs.countP (·.critical_detected) : ℚ) / n else 0
  let hallucination_rate : ℚ := if n > 0 then (rs.countP (·.hallucinated) : ℚ) / n else 0
  let helpfulness_rate : ℚ := if n > 0 then (rs.countP (·.helpful) : ℚ) / n else 0
  let passed := decide (critical_rate ≥ 0.5) && decide (hallucination_rate ≤ 0.35)
  let verdict :=
    if critical_rate ≥ 0.8 ∧ hallucination_rate ≤ 0.15 then Verdict.Recommended
    else if passed then Verdict.Acceptable
    else Verdict.Rejected
  { model := model, promptId := promptId, promptContent := promptContent,
    criticalDetectionRate := critical_rate, hallucinationRate := hallucination_rate,
    helpfulnessRate := helpfulness_rate, passed := passed, verdict := verdict }

/-! ## Repo-specific sort and rank assignment (`eval.py` lines 605-607) -/

/-- The order realised by `results.sort(key=lambda x: (x["criticalDetectionRate"],
-x["hallucinationRate"]), reverse=True)`: `a` may precede `b` iff the key tuple
of `a` is lexicographically at least that of `b`. -/
def repoSortLe (a b : RepoCombRecord) : Bool :=
  decide (b.criticalDetectionRate < a.criticalDetectionRate) ||
    (decide (a.criticalDetectionRate = b.criticalDetectionRate) &&
      decide (a.hallucinationRate ≤ b.hallucinationRate))

/-- The `for i, r in enumerate(results): r["rank"] = i + 1` loop (lines
606-607), started at `i = 0`. -/
def assignRanks : Nat → List RepoCombRecord → List RepoCombRecord
  | _, [] => []
  | i, r :: rest => { r with rank := i + 1 } :: assignRanks (i + 1) rest

/-- Lines 605-607: sort descending by (detection rate, negated hallucination
rate) — a stable sort under the same total preorder as Python's — then assign
1-based ranks in order. -/
def finalizeRepoResults (results : List RepoCombRecord) : List RepoCombRecord :=
  assignRanks 0 (results.mergeSort repoSortLe)

/-! ## Progress counter writes

`run_evaluation_task` writes `progress` once per (model, prompt) combination
(`current += 1; eval_status["progress"] = current`, lines 302-303) and once
more at the end (`eval_status["progress"] = total`, line 328);
`run_repo_evaluation_task` only has the per-combination write (lines 602-603).
The traces below list the initial value 0 (set by the accepting start request)
followed by every value ever assigned, in program order. -/

/-- Values assigned to `progress` by the inner (prompt) loop for one model,
starting from counter value `current`; also returns the final counter. -/
def innerProgressWrites (current : Nat) : List (String × String) → Nat × List Nat
  | [] => (current, [])
  | _ :: ps =>
    let c := current + 1
    let (cf, ws) := innerProgressWrites c ps
    (cf, c :: ws)

/-- Values assigned to `progress` by the full model × prompt walk. -/
def outerProgressWrites (current : Nat) (ms : List String)
    (ps : List (String × String)) : Nat × List Nat :=
  match ms with
  | [] => (current, [])
  | _ :: ms' =>
    let (c', ws) := innerProgressWrites current ps
    let (cf, ws') := outerProgressWrites c' ms' ps
    (cf, ws ++ ws')

/-- Every value held by `eval_status["progress"]` during one global run, in
order: 0 from the start reset, the loop writes, then the final line 328 write. -/
def globalProgressTrace (ms : List String) (ps : List (String × String)) : List Nat :=
  0 :: ((outerProgressWrites 0 ms ps).2 ++ [ms.length * ps.length])

/-- Every value held by `repo_eval_status["progress"]` during one repo run:
0 from the start reset, then the loop writes (there is no final write). -/
def repoProgressTrace (ms : List String) (ps : List (String × String)) : List Nat :=
  0 :: (outerProgressWrites 0 ms ps).2

/-! ## Run state, single-flight guard and results cache

`eval.py` keeps one module-level status dict and results cache per mode
(`eval_status`/`eval_results_cache`, lines 20-34, and `repo_eval_status`/
`repo_eval_results_cache`, lines 418-433).  `time.time()` and the log
timestamp are passed in as parameters. -/

/-- The status dict shape shared by both modes (`eval.py` lines 21-34). -/
structure RunStatus where
  running : Bool
  progress : Nat
  total : Nat
  current_model : String
  current_prompt : String
  current_pr : String
  current_step : String
  sub_progress : Nat
  sub_total : Nat
  start_time : Option Nat
  elapsed_time : Nat
  logs : List String
deriving DecidableEq

/-- The module-load initial status (`eval.py` lines 21-34 and 418-431). -/
def initRunStatus : RunStatus :=
  { running := false, progress := 0, total := 0, current_model := "",
    current_prompt := "", current_pr := "", current_step := "", sub_progress := 0,
    sub_total := 0, start_time := none, elapsed_time := 0, logs := [] }

/-- The `add_log`/`add_repo_log` helpers (`eval.py` lines 37-55 and 436-448):
timestamp, append, keep only the 100 most recent entries. -/
def addLog (ts msg : String) (logs : List String) : List String :=
  let logs := logs ++ [s!"[{ts}] {msg}"]
  if logs.length > 100 then logs.drop (logs.length - 100) else logs

/-- Global-mode server state: `eval_status` plus `eval_results_cache`
(`none` = the "results" key is absent). -/
structure GlobalServer where
  status : RunStatus
  cache : Option (List GlobalCombRecord)
deriving DecidableEq

/-- Outcome surfaced to the caller of a start endpoint: HTTP 400 conflict, or
acceptance carrying `total_combinations`. -/
inductive StartOutcome where
  | conflict
  | started (total_combinations : Nat)
deriving DecidableEq

/-- The `start_global_eval` handler (`eval.py` lines 102-143): reject with a
conflict if `running`, otherwise reset the status dict (line 112-125), clear
the results cache (line 126), and emit the four start log lines.
`datasetSize` stands for `len(eval_service.dataset)`, which is loaded from a
data file outside the evaluated sources. -/
def startGlobalEval (now : Nat) (ts : String) (datasetSize : Nat)
    (srv : GlobalServer) : GlobalServer × StartOutcome :=
  if srv.status.running then (srv, .conflict)
  else
    let total := models.length * SYSTEM_PROMPTS.length
    let nm := models.length
    let np := SYSTEM_PROMPTS.length
    let est := total * datasetSize * 4
    let logs := addLog ts "Starting global evaluation" []
    let logs := addLog ts s!"Models: {nm} | Prompts: {np} | Total: {total} combinations" logs
    let logs := addLog ts s!"Dataset: {datasetSize} PRs per combination" logs
    let logs := addLog ts s!"Estimated steps: {est} (review + 3 judges each)" logs
    ({ status :=
        { running := true, progress := 0, total := total, current_model := "",
          current_prompt := "", current_pr := "", current_step := "Initializing...",
          sub_progress := 0, sub_total := datasetSize, start_time := some now,
          elapsed_time := 0, logs := logs },
       cache := none },
     .started total)

/-- The tail of `run_evaluation_task` (`eval.py` lines 306-329): append the
summary log lines, publish the results to the cache, clear `running`, and set
`progress = total` and the final step label. -/
def finishGlobalRun (ts : String) (now : Nat) (results : List GlobalCombRecord)
    (srv : GlobalServer) : GlobalServer :=
  let passed_count := results.countP (·.passed)
  let total_time := now - srv.status.start_time.getD 0
  let nres := results.length
  let nfil := nres - passed_count
  let sep := String.mk (List.replicate 50 '=')
  let logs := addLog ts "" srv.status.logs
  let logs := addLog ts sep logs
  let logs := addLog ts "EVALUATION COMPLETE" logs
  let logs := addLog ts sep logs
  let logs := addLog ts s!"Passed: {passed_count}/{nres}" logs
  let logs := addLog ts s!"Filtered: {nfil}/{nres}" logs
  let logs := addLog ts s!"Total time: {total_time}s" logs
  { status :=
      { srv.status with
          running := false
          progress := srv.status.total
          current_step := "Complete"
          logs := logs },
    cache := some results }

/-- The `get_eval_results` handler (`eval.py` lines 362-370): HTTP 404 when
the cache has no "results" key, otherwise the completed results. -/
def getEvalResults (srv : GlobalServer) :
    Except (Nat × String) (String × List GlobalCombRecord) :=
  match srv.cache with
  | none => .error (404, "No evaluation results available. Run /eval/global/start first.")
  | some rs => .ok ("complete", rs)

/-- Observable events touching the global run state: an incoming start request
and the completion of the background task it spawned. -/
inductive GEvent where
  | start (now : Nat) (ts : String) (datasetSize : Nat)
  | finish (ts : String) (now : Nat) (results : List GlobalCombRecord)

/-- Apply one event to the global server state. -/
def stepGlobal (srv : GlobalServer) : GEvent → GlobalServer
  | .start now ts ds => (startGlobalEval now ts ds srv).1
  | .finish ts now rs => finishGlobalRun ts now rs srv

/-- Server state after a sequence of events, from the module-load state. -/
def runGlobalEvents (es : List GEvent) : GlobalServer :=
  es.foldl stepGlobal { status := initRunStatus, cache := none }

/-- Number of completed runs in an event history. -/
def completedRuns (es : List GEvent) : Nat :=
  es.countP (fun e => match e with | .finish _ _ _ => true | _ => false)

/-- One caller-supplied PR for repo-specific evaluation (`eval.py` lines
407-411). -/
structure PREval where
  id : Int
  title : String
  diff : String
  expectedFocus : String
deriving DecidableEq

/-- The repo results cache: `{"prs": ...}` is written at start (line 473) and
"results" at completion (line 622). -/
structure RepoCache where
  prs : Option (List PREval)
  results : Option (List RepoCombRecord)
deriving DecidableEq

/-- Repo-mode server state. -/
structure RepoServer where
  status : RunStatus
  cache : RepoCache
deriving DecidableEq

/-- The `start_repo_eval` handler (`eval.py` lines 451-489): conflict if
`running`, otherwise reset the status dict (lines 459-472), overwrite the
cache with the submitted PRs (line 473), and emit the three start log lines. -/
def startRepoEval (now : Nat) (ts : String) (prs : List PREval)
    (srv : RepoServer) : RepoServer × StartOutcome :=
  if srv.status.running then (srv, .conflict)
  else
    let total := models.length * SYSTEM_PROMPTS.length
    let nm := models.length
    let np := SYSTEM_PROMPTS.length
    let npr := prs.length
    let logs := addLog ts "Starting repo-specific evaluation" []
    let logs := addLog ts s!"Models: {nm}, Prompts: {np}" logs
    let logs := addLog ts s!"PRs to evaluate: {npr}" logs
    ({ status :=
        { running := true, progress := 0, total := total, current_model := "",
          current_prompt := "", current_pr := "", current_step := "Initializing...",
          sub_progress := 0, sub_total := prs.length, start_time := some now,
          elapsed_time := 0, logs := logs },
       cache := { prs := some prs, results := none } },
     .started total)

/-! ## Helper lemmas -/

/-- Unfolding of the global combination record on a nonempty item list. -/
theorem runGlobalCombination_eq (m pid pc : String) (rs : List ItemOutcome)
    (h : rs.length ≠ 0) :
    runGlobalCombination m pid pc rs =
      ⟨m, pid, pc, (rs.countP (·.critical_detected) : ℚ) / rs.length,
        (rs.countP (·.hallucinated) : ℚ) / rs.length,
        (rs.countP (·.helpful) : ℚ) / rs.length,
        decide ((rs.countP (·.critical_detected) : ℚ) / rs.length ≥ 0.5) &&
          decide ((rs.countP (·.hallucinated) : ℚ) / rs.length ≤ 0.35)⟩ := by
  simp [runGlobalCombination, combinationMetrics, h]

/-- Unfolding of the global combination record on the empty item list: the
division raises and the `except` arm records the sentinel. -/
theorem runGlobalCombination_nil (m pid pc : String) :
    runGlobalCombination m pid pc [] = ⟨m, pid, pc, 0, 1, 0, false⟩ := rfl

/-- The repo rates on a nonempty item list. -/
theorem runRepoCombination_rates (m pid pc : String) (rs : List ItemOutcome)
    (h : 0 < rs.length) :
    (runRepoCombination m pid pc rs).criticalDetectionRate =
        (rs.countP (·.critical_detected) : ℚ) / rs.length ∧
      (runRepoCombination m pid pc rs).hallucinationRate =
        (rs.countP (·.hallucinated) : ℚ) / rs.length ∧
      (runRepoCombination m pid pc rs).helpfulnessRate =
        (rs.countP (·.helpful) : ℚ) / rs.length := by
  refine ⟨?_, ?_, ?_⟩ <;> simp [runRepoCombination, h]

/-- Twenty outcomes with 10 critical detections and 7 hallucinations: rates
exactly (0.5, 0.35). -/
def itemsBoundaryPass : List ItemOutcome :=
  List.replicate 7 ⟨true, true, true⟩ ++ List.replicate 3 ⟨true, false, false⟩ ++
    List.replicate 10 ⟨false, false, false⟩

/-- One hundred outcomes with 49 critical detections and no hallucinations:
critical rate exactly 0.49. -/
def itemsBoundaryLowCrit : List ItemOutcome :=
  List.replicate 49 ⟨true, false, false⟩ ++ List.replicate 51 ⟨false, false, false⟩

/-- Twenty-five outcomes, all critical detections, 9 hallucinations:
hallucination rate exactly 0.36. -/
def itemsBoundaryHighHall : List ItemOutcome :=
  List.replicate 9 ⟨true, true, false⟩ ++ List.replicate 16 ⟨true, false, false⟩

/-- C1: in both global and repo-specific mode, the recorded `passed` flag
equals `critical_rate ≥ 0.5 AND hallucination_rate ≤ 0.35` of the recorded
rates for every combination; a combination with rates exactly (0.5, 0.35)
passes, and one with critical rate 0.49, or hallucination rate 0.36, fails. -/
theorem passed_threshold_policy :
    (∀ (m pid pc : String) (rs : List ItemOutcome),
      (runGlobalCombination m pid pc rs).passed = true ↔
        ((runGlobalCombination m pid pc rs).critical_detection_rate ≥ 0.5 ∧
          (runGlobalCombination m pid pc rs).hallucination_rate ≤ 0.35)) ∧
    (∀ (m pid pc : String) (rs : List ItemOutcome),
      (runRepoCombination m pid pc rs).passed = true ↔
        ((runRepoCombination m pid pc rs).criticalDetectionRate ≥ 0.5 ∧
          (runRepoCombination m pid pc rs).hallucinationRate ≤ 0.35)) ∧
    ((runGlobalCombination "sonar" "prompt-1" "c" itemsBoundaryPass).critical_detection_rate = 0.5 ∧
      (runGlobalCombination "sonar" "prompt-1" "c" itemsBoundaryPass).hallucination_rate = 0.35 ∧
      (runGlobalCombination "sonar" "prompt-1" "c" itemsBoundaryPass).passed = true) ∧
    ((runRepoCombination "sonar" "prompt-1" "c" itemsBoundaryPass).criticalDetectionRate = 0.5 ∧
      (runRepoCombination "sonar" "prompt-1" "c" itemsBoundaryPass).hallucinationRate = 0.35 ∧
      (runRepoCombination "sonar" "prompt-1" "c" itemsBoundaryPass).verdict ≠ Verdict.Rejected ∧
      (runRepoCombination "sonar" "prompt-1" "c" itemsBoundaryPass).passed = true) ∧
    ((runGlobalCombination "sonar" "prompt-1" "c" itemsBoundaryLowCrit).critical_detection_rate = 0.49 ∧
      (runGlobalCombination "sonar" "prompt-1" "c" itemsBoundaryLowCrit).passed = false ∧
      (runRepoCombination "sonar" "prompt-1" "c" itemsBoundaryLowCrit).passed = false) ∧
    ((runGlobalCombination "sonar" "prompt-1" "c" itemsBoundaryHighHall).hallucination_rate = 0.36 ∧
      (runGlobalCombination "sonar" "prompt-1" "c" itemsBoundaryHighHall).passed = false ∧
      (runRepoCombination "sonar" "prompt-1" "c" itemsBoundaryHighHall).passed = false) := by
  have hBPc : itemsBoundaryPass.countP (·.critical_detected) = 10 := by decide
  have hBPh : itemsBoundaryPass.countP (·.hallucinated) = 7 := by decide
  have hBPn : itemsBoundaryPass.length = 20 := by decide
  have hLCc : itemsBoundaryLowCrit.countP (·.critical_detected) = 49 := by decide
  have hLCh : itemsBoundaryLowCrit.countP (·.hallucinated) = 0 := by decide
  have hLCn : itemsBoundaryLowCrit.length = 100 := by decide
  have hHHc : itemsBoundaryHighHall.countP (·.critical_detected) = 25 := by decide
  have hHHh : itemsBoundaryHighHall.countP (·.hallucinated) = 9 := by decide
  have hHHn : itemsBoundaryHighHall.length = 25 := by decide
  refine ⟨?_, ?_, ?_, ?_, ?_, ?_⟩
  · intro m pid pc rs
    rcases Nat.eq_zero_or_pos rs.length with h | h
    · rw [List.length_eq_zero] at h
      subst h
      rw [runGlobalCombination_nil]
      norm_num
    · rw [runGlobalCombination_eq m pid pc rs (Nat.pos_iff_ne_zero.mp h)]
      simp
  · intro m pid pc rs
    rcases Nat.eq_zero_or_pos rs.length with h | h
    · rw [List.length_eq_zero] at h
      subst h
      simp [runRepoCombination]
    · simp [runRepoCombination, h]
  · norm_num [runGlobalCombination, combinationMetrics, hBPc, hBPh, hBPn]
  · norm_num [runRepoCombination, hBPc, hBPh, hBPn]
    decide
  · norm_num [runGlobalCombination, combinationMetrics, runRepoCombination,
      hLCc, hLCh, hLCn]
  · norm_num [runGlobalCombination, combinationMetrics, runRepoCombination,
      hHHc, hHHh, hHHn]

/-- Twenty outcomes, 16 critical detections, 3 hallucinations: rates exactly
(0.8, 0.15). -/
def itemsVerdictRecommended : List ItemOutcome :=
  List.replicate 3 ⟨true, true, false⟩ ++ List.replicate 13 ⟨true, false, false⟩ ++
    List.replicate 4 ⟨false, false, false⟩

/-- Five outcomes, 3 critical detections, 1 hallucination: rates exactly
(0.6, 0.2). -/
def itemsVerdictAcceptable : List ItemOutcome :=
  List.replicate 1 ⟨true, true, false⟩ ++ List.replicate 2 ⟨true, false, false⟩ ++
    List.replicate 2 ⟨false, false, false⟩

/-- Ten outcomes, 3 critical detections, 5 hallucinations: rates exactly
(0.3, 0.5). -/
def itemsVerdictRejected : List ItemOutcome :=
  List.replicate 3 ⟨true, true, false⟩ ++ List.replicate 2 ⟨false, true, false⟩ ++
    List.replicate 5 ⟨false, false, false⟩

/-- C4: for every repo-specific combination, `verdict` is the stated pure
function of the recorded rates (`Recommended` when critical rate ≥ 0.8 and
hallucination rate ≤ 0.15, else `Acceptable` when `passed`, else `Rejected`);
rates (0.8, 0.15) give Recommended, (0.6, 0.2) Acceptable, (0.3, 0.5)
Rejected. -/
theorem verdict_policy :
    (∀ (m pid pc : String) (rs : List ItemOutcome),
      (runRepoCombination m pid pc rs).verdict =
        (if (runRepoCombination m pid pc rs).criticalDetectionRate ≥ 0.8 ∧
            (runRepoCombination m pid pc rs).hallucinationRate ≤ 0.15 then
          Verdict.Recommended
        else if (runRepoCombination m pid pc rs).passed then Verdict.Acceptable
        else Verdict.Rejected)) ∧
    ((runRepoCombination "sonar" "prompt-1" "c" itemsVerdictRecommended).criticalDetectionRate = 0.8 ∧
      (runRepoCombination "sonar" "prompt-1" "c" itemsVerdictRecommended).hallucinationRate = 0.15 ∧
      (runRepoCombination "sonar" "prompt-1" "c" itemsVerdictRecommended).verdict = Verdict.Recommended) ∧
    ((runRepoCombination "sonar" "prompt-1" "c" itemsVerdictAcceptable).criticalDetectionRate = 0.6 ∧
      (runRepoCombination "sonar" "prompt-1" "c" itemsVerdictAcceptable).hallucinationRate = 0.2 ∧
      (runRepoCombination "sonar" "prompt-1" "c" itemsVerdictAcceptable).verdict = Verdict.Acceptable) ∧
    ((runRepoCombination "sonar" "prompt-1" "c" itemsVerdictRejected).criticalDetectionRate = 0.3 ∧
      (runRepoCombination "sonar" "prompt-1" "c" itemsVerdictRejected).hallucinationRate = 0.5 ∧
      (runRepoCombination "sonar" "prompt-1" "c" itemsVerdictRejected).verdict = Verdict.Rejected) := by
  have hRc : itemsVerdictRecommended.countP (·.critical_detected) = 16 := by decide
  have hRh : itemsVerdictRecommended.countP (·.hallucinated) = 3 := by decide
  have hRn : itemsVerdictRecommended.length = 20 := by decide
  have hAc : itemsVerdictAcceptable.countP (·.critical_detected) = 3 := by decide
  have hAh : itemsVerdictAcceptable.countP (·.hallucinated) = 1 := by decide
  have hAn : itemsVerdictAcceptable.length = 5 := by decide
  have hJc : itemsVerdictRejected.countP (·.critical_detected) = 3 := by decide
  have hJh : itemsVerdictRejected.countP (·.hallucinated) = 5 := by decide
  have hJn : itemsVerdictRejected.length = 10 := by decide
  refine ⟨?_, ?_, ?_, ?_⟩
  · intro m pid pc rs
    simp [runRepoCombination]
  · norm_num [runRepoCombination, hRc, hRh, hRn]
  · norm_num [runRepoCombination, hAc, hAh, hAn]
  · norm_num [runRepoCombination, hJc, hJh, hJn]

/-- C3 counterexample: in global mode the empty item list does not produce
all-zero rates.  The unguarded division (`eval_service.py` line 341, `eval.py`
line 259) raises `ZeroDivisionError` (modeled: `combinationMetrics [] = none`),
the combination-level `except` records the sentinel, and the recorded
hallucination rate is 1, not 0. -/
theorem empty_rates_counterexample :
    combinationMetrics [] = none ∧
      (runGlobalCombination "sonar" "prompt-1" "c" []).hallucination_rate = 1 ∧
      (1 : ℚ) ≠ 0 :=
  ⟨rfl, rfl, by norm_num⟩

/-- Shared bound: a count divided by the list length lies in [0, 1] for a
nonempty list. -/
theorem rate_mem_unit (p : ItemOutcome → Bool) (rs : List ItemOutcome)
    (h : rs ≠ []) :
    0 ≤ (rs.countP p : ℚ) / rs.length ∧ (rs.countP p : ℚ) / rs.length ≤ 1 := by
  have hn : 0 < (rs.length : ℚ) := by
    exact_mod_cast List.length_pos.mpr h
  constructor
  · positivity
  · rw [div_le_one hn]
    exact_mod_cast List.countP_le_length p

/-- C3 amended: for every nonempty item list all three rates lie in [0, 1] in
both modes; on the empty list the repo-specific mode records all-zero rates
(its divisions are guarded), while the global mode hits an unguarded division
by zero whose exception is caught at the combination boundary and recorded as
the sentinel rates (0, 1, 0). -/
theorem rates_unit_and_empty :
    (∀ (m pid pc : String) (rs : List ItemOutcome), rs ≠ [] →
      (0 ≤ (runGlobalCombination m pid pc rs).critical_detection_rate ∧
          (runGlobalCombination m pid pc rs).critical_detection_rate ≤ 1) ∧
        (0 ≤ (runGlobalCombination m pid pc rs).hallucination_rate ∧
          (runGlobalCombination m pid pc rs).hallucination_rate ≤ 1) ∧
        (0 ≤ (runGlobalCombination m pid pc rs).helpfulness_rate ∧
          (runGlobalCombination m pid pc rs).helpfulness_rate ≤ 1) ∧
        (0 ≤ (runRepoCombination m pid pc rs).criticalDetectionRate ∧
          (runRepoCombination m pid pc rs).criticalDetectionRate ≤ 1) ∧
        (0 ≤ (runRepoCombination m pid pc rs).hallucinationRate ∧
          (runRepoCombination m pid pc rs).hallucinationRate ≤ 1) ∧
        (0 ≤ (runRepoCombination m pid pc rs).helpfulnessRate ∧
          (runRepoCombination m pid pc rs).helpfulnessRate ≤ 1)) ∧
    (∀ m pid pc : String,
      (runRepoCombination m pid pc []).criticalDetectionRate = 0 ∧
        (runRepoCombination m pid pc []).hallucinationRate = 0 ∧
        (runRepoCombination m pid pc []).helpfulnessRate = 0) ∧
    (∀ m pid pc : String,
      combinationMetrics [] = none ∧
        (runGlobalCombination m pid pc []).critical_detection_rate = 0 ∧
        (runGlobalCombination m pid pc []).hallucination_rate = 1 ∧
        (runGlobalCombination m pid pc []).helpfulness_rate = 0 ∧
        (runGlobalCombination m pid pc []).passed = false) := by
  refine ⟨?_, ?_, ?_⟩
  · intro m pid pc rs h
    have hlen : rs.length ≠ 0 :=
      Nat.pos_iff_ne_zero.mp (List.length_pos.mpr h)
    have hpos : 0 < rs.length := Nat.pos_of_ne_zero hlen
    rw [runGlobalCombination_eq m pid pc rs hlen]
    obtain ⟨hc, hh, hp⟩ := runRepoCombination_rates m pid pc rs hpos
    rw [hc, hh, hp]
    exact ⟨rate_mem_unit _ rs h, rate_mem_unit _ rs h, rate_mem_unit _ rs h,
      rate_mem_unit _ rs h, rate_mem_unit _ rs h, rate_mem_unit _ rs h⟩
  · intro m pid pc
    refine ⟨?_, ?_, ?_⟩ <;> simp [runRepoCombination]
  · intro m pid pc
    exact ⟨rfl, rfl, rfl, rfl, rfl⟩

/-- Witness for `rates_unit_and_empty` at a concrete one-element list. -/
theorem rates_unit_and_empty_witness :
    ([⟨true, false, true⟩] : List ItemOutcome) ≠ [] ∧
      (0 ≤ (runGlobalCombination "sonar" "prompt-1" "c" [⟨true, false, true⟩]).critical_detection_rate ∧
          (runGlobalCombination "sonar" "prompt-1" "c" [⟨true, false, true⟩]).critical_detection_rate ≤ 1) ∧
        (0 ≤ (runGlobalCombination "sonar" "prompt-1" "c" [⟨true, false, true⟩]).hallucination_rate ∧
          (runGlobalCombination "sonar" "prompt-1" "c" [⟨true, false, true⟩]).hallucination_rate ≤ 1) ∧
        (0 ≤ (runGlobalCombination "sonar" "prompt-1" "c" [⟨true, false, true⟩]).helpfulness_rate ∧
          (runGlobalCombination "sonar" "prompt-1" "c" [⟨true, false, true⟩]).helpfulness_rate ≤ 1) ∧
        (0 ≤ (runRepoCombination "sonar" "prompt-1" "c" [⟨true, false, true⟩]).criticalDetectionRate ∧
          (runRepoCombination "sonar" "prompt-1" "c" [⟨true, false, true⟩]).criticalDetectionRate ≤ 1) ∧
        (0 ≤ (runRepoCombination "sonar" "prompt-1" "c" [⟨true, false, true⟩]).hallucinationRate ∧
          (runRepoCombination "sonar" "prompt-1" "c" [⟨true, false, true⟩]).hallucinationRate ≤ 1) ∧
        (0 ≤ (runRepoCombination "sonar" "prompt-1" "c" [⟨true, false, true⟩]).helpfulnessRate ∧
          (runRepoCombination "sonar" "prompt-1" "c" [⟨true, false, true⟩]).helpfulnessRate ≤ 1) :=
  ⟨by decide,
    rates_unit_and_empty.1 "sonar" "prompt-1" "c" [⟨true, false, true⟩] (by decide)⟩

/-- Python `upper()` preserves length. -/
theorem pyUpper_length (s : String) : (pyUpper s).length = s.length := by
  rw [pyUpper, String.length_mk, List.length_map]
  rfl

/-- Length decomposition of the critical-detection judge prompt: every field
contributes its full length. -/
theorem judgeCriticalPrompt_length (d r ef : String) :
    (judgeCriticalPrompt d r ef).length =
      criticalPromptSeg0.length + d.length + criticalPromptSeg1.length + r.length +
        criticalPromptSeg2.length + (focusDescription ef).length +
        criticalPromptSeg3.length := by
  rw [judgeCriticalPrompt, String.length_append, String.length_append,
    String.length_append, String.length_append, String.length_append,
    String.length_append, pyUpper_length]

/-- Length decomposition of the hallucination judge prompt. -/
theorem judgeHallucinationPrompt_length (d r : String) :
    (judgeHallucinationPrompt d r).length =
      hallucinationPromptSeg0.length + d.length + hallucinationPromptSeg1.length +
        r.length + hallucinationPromptSeg2.length := by
  rw [judgeHallucinationPrompt, String.length_append, String.length_append,
    String.length_append, String.length_append]

/-- Length decomposition of the helpfulness judge prompt. -/
theorem judgeHelpfulnessPrompt_length (r : String) :
    (judgeHelpfulnessPrompt r).length =
      helpfulnessPromptSeg0.length + r.length + helpfulnessPromptSeg1.length := by
  rw [judgeHelpfulnessPrompt, String.length_append, String.length_append]

/-- C6 counterexample: a 5000-character diff is inserted into the
critical-detection judge prompt whole — the prompt length exceeds what any
2000-character prefix truncation of the diff field could produce. -/
theorem judge_prompt_truncation_counterexample :
    (String.mk (List.replicate 5000 'a')).length = 5000 ∧
      (judgeCriticalPrompt (String.mk (List.replicate 5000 'a')) "" "sql_injection").length =
        criticalPromptSeg0.length + 5000 + criticalPromptSeg1.length +
          criticalPromptSeg2.length + (focusDescription "sql_injection").length +
          criticalPromptSeg3.length ∧
      criticalPromptSeg0.length + 2000 + criticalPromptSeg1.length +
          criticalPromptSeg2.length + (focusDescription "sql_injection").length +
          criticalPromptSeg3.length <
        (judgeCriticalPrompt (String.mk (List.replicate 5000 'a')) "" "sql_injection").length := by
  have hlen : (String.mk (List.replicate 5000 'a')).length = 5000 := by
    rw [String.length_mk, List.length_replicate]
  have h := judgeCriticalPrompt_length (String.mk (List.replicate 5000 'a')) "" "sql_injection"
  rw [hlen] at h
  rw [show ("" : String).length = 0 from rfl] at h
  refine ⟨hlen, by rw [h]; omega, by rw [h]; omega⟩

/-- C6 amended: the three judge templates insert the diff text, review text
and expected-focus description in full, with no truncation — each prompt's
length is the sum of the fixed template segments and the untruncated lengths
of every inserted field, so arbitrarily long inputs appear unbounded in the
prompt. -/
theorem judge_prompt_no_truncation :
    ∀ d r ef : String,
      (judgeCriticalPrompt d r ef).length =
          criticalPromptSeg0.length + d.length + criticalPromptSeg1.length + r.length +
            criticalPromptSeg2.length + (focusDescription ef).length +
            criticalPromptSeg3.length ∧
        (judgeHallucinationPrompt d r).length =
          hallucinationPromptSeg0.length + d.length + hallucinationPromptSeg1.length +
            r.length + hallucinationPromptSeg2.length ∧
        (judgeHelpfulnessPrompt r).length =
          helpfulnessPromptSeg0.length + r.length + helpfulnessPromptSeg1.length :=
  fun d r ef =>
    ⟨judgeCriticalPrompt_length d r ef, judgeHallucinationPrompt_length d r,
      judgeHelpfulnessPrompt_length r⟩

/-- C2: a start request in either mode, issued while that mode's state has
`running = true`, returns the conflict response and leaves the entire server
state — every status field, counters, coordinates, logs, and the results
cache — unchanged. -/
theorem single_flight_guard (gs : GlobalServer) (rsrv : RepoServer) (now : Nat)
    (ts : String) (datasetSize : Nat) (prs : List PREval)
    (hg : gs.status.running = true) (hr : rsrv.status.running = true) :
    startGlobalEval now ts datasetSize gs = (gs, StartOutcome.conflict) ∧
      startRepoEval now ts prs rsrv = (rsrv, StartOutcome.conflict) := by
  constructor
  · rw [startGlobalEval, if_pos hg]
  · rw [startRepoEval, if_pos hr]

/-- Witness for `single_flight_guard` at concrete running states. -/
theorem single_flight_guard_witness :
    startGlobalEval 7 "12:00:00" 3
        ⟨{ initRunStatus with running := true }, none⟩ =
      (⟨{ initRunStatus with running := true }, none⟩, StartOutcome.conflict) ∧
    startRepoEval 7 "12:00:00" []
        ⟨{ initRunStatus with running := true }, ⟨none, none⟩⟩ =
      (⟨{ initRunStatus with running := true }, ⟨none, none⟩⟩, StartOutcome.conflict) :=
  single_flight_guard ⟨{ initRunStatus with running := true }, none⟩
    ⟨{ initRunStatus with running := true }, ⟨none, none⟩⟩ 7 "12:00:00" 3 [] rfl rfl

/-- A one-entry global results list used as a concrete completed run. -/
def c9Results : List GlobalCombRecord :=
  [⟨"sonar", "prompt-1", "c", 1, 0, 1, true⟩]

/-- C9 counterexample: the history start → finish → start has one completed
run, yet `get_eval_results` answers 404, because the accepting second start
cleared the results cache (`eval.py` line 126).  "No run has ever completed"
is therefore not equivalent to the 404 condition. -/
theorem results_notfound_counterexample :
    completedRuns
        [GEvent.start 0 "10:00:00" 3, GEvent.finish "10:05:00" 300 c9Results,
          GEvent.start 400 "10:06:40" 3] = 1 ∧
      getEvalResults
          (runGlobalEvents
            [GEvent.start 0 "10:00:00" 3, GEvent.finish "10:05:00" 300 c9Results,
              GEvent.start 400 "10:06:40" 3]) =
        Except.error (404, "No evaluation results available. Run /eval/global/start first.") :=
  ⟨rfl, rfl⟩

/-- C9 amended: `get_eval_results` answers 404 exactly when the results cache
is empty — that is, when no run has completed since the most recent accepted
start (including when no run ever completed): completion populates the cache
and an accepted start clears it. -/
theorem results_notfound_policy :
    (∀ srv : GlobalServer,
      (∃ e, getEvalResults srv = Except.error e) ↔ srv.cache = none) ∧
    (∀ (srv : GlobalServer) (ts : String) (now : Nat) (res : List GlobalCombRecord),
      getEvalResults (finishGlobalRun ts now res srv) = Except.ok ("complete", res)) ∧
    (∀ (srv : GlobalServer) (now : Nat) (ts : String) (datasetSize : Nat),
      srv.status.running = false →
        (startGlobalEval now ts datasetSize srv).1.cache = none) := by
  refine ⟨?_, ?_, ?_⟩
  · intro srv
    cases h : srv.cache <;> simp [getEvalResults, h]
  · intro srv ts now res
    simp [finishGlobalRun, getEvalResults]
  · intro srv now ts datasetSize h
    rw [startGlobalEval, if_neg (by rw [h]; exact Bool.false_ne_true)]

/-- Witness for `results_notfound_policy` at the module-load state. -/
theorem results_notfound_policy_witness :
    (startGlobalEval 0 "09:00:00" 3 ⟨initRunStatus, none⟩).1.cache = none :=
  results_notfound_policy.2.2 ⟨initRunStatus, none⟩ 0 "09:00:00" 3 rfl

/-- The repo sort order is transitive. -/
theorem repoSortLe_trans (a b c : RepoCombRecord) (hab : repoSortLe a b = true)
    (hbc : repoSortLe b c = true) : repoSortLe a c = true := by
  simp only [repoSortLe, Bool.or_eq_true, Bool.and_eq_true, decide_eq_true_eq] at hab hbc ⊢
  rcases hab with h1 | ⟨h1, h2⟩ <;> rcases hbc with h3 | ⟨h3, h4⟩
  · exact Or.inl (lt_trans h3 h1)
  · exact Or.inl (by rw [← h3]; exact h1)
  · exact Or.inl (by rw [h1]; exact h3)
  · exact Or.inr ⟨h1.trans h3, h2.trans h4⟩

/-- The repo sort order is total. -/
theorem repoSortLe_total (a b : RepoCombRecord) :
    (repoSortLe a b || repoSortLe b a) = true := by
  simp only [repoSortLe, Bool.or_eq_true, Bool.and_eq_true, decide_eq_true_eq]
  rcases lt_trichotomy a.criticalDetectionRate b.criticalDetectionRate with h | h | h
  · exact Or.inr (Or.inl h)
  · rcases le_total a.hallucinationRate b.hallucinationRate with hh | hh
    · exact Or.inl (Or.inr ⟨h, hh⟩)
    · exact Or.inr (Or.inr ⟨h.symm, hh⟩)
  · exact Or.inl (Or.inl h)

/-- Membership in a rank-assigned list comes from the underlying list with
only the `rank` field changed. -/
theorem mem_assignRanks (y : RepoCombRecord) :
    ∀ (i : Nat) (l : List RepoCombRecord), y ∈ assignRanks i l →
      ∃ x ∈ l, ∃ k, y = { x with rank := k } := by
  intro i l
  induction l generalizing i with
  | nil => intro h; cases h
  | cons x xs ih =>
    intro h
    simp only [assignRanks] at h
    rcases List.mem_cons.mp h with h | h
    · exact ⟨x, List.mem_cons_self x xs, i + 1, h⟩
    · obtain ⟨x', hx', k, hk⟩ := ih (i + 1) h
      exact ⟨x', List.mem_cons_of_mem x hx', k, hk⟩

/-- Rank assignment preserves sortedness by the rate fields. -/
theorem assignRanks_pairwise (l : List RepoCombRecord)
    (h : l.Pairwise (fun a b => repoSortLe a b = true)) (i : Nat) :
    (assignRanks i l).Pairwise (fun a b =>
      b.criticalDetectionRate < a.criticalDetectionRate ∨
        (a.criticalDetectionRate = b.criticalDetectionRate ∧
          a.hallucinationRate ≤ b.hallucinationRate)) := by
  induction l generalizing i with
  | nil => exact List.Pairwise.nil
  | cons x xs ih =>
    rcases List.pairwise_cons.mp h with ⟨hx, hxs⟩
    simp only [assignRanks]
    refine List.pairwise_cons.mpr ⟨?_, ih hxs (i + 1)⟩
    intro y hy
    obtain ⟨x', hx', k, rfl⟩ := mem_assignRanks y (i + 1) xs hy
    have hxx := hx x' hx'
    simpa [repoSortLe, Bool.or_eq_true, Bool.and_eq_true, decide_eq_true_eq]
      using hxx

/-- The assigned ranks are the consecutive integers starting at `i + 1`. -/
theorem assignRanks_map_rank :
    ∀ (i : Nat) (l : List RepoCombRecord),
      (assignRanks i l).map (fun r => r.rank) = List.range' (i + 1) l.length := by
  intro i l
  induction l generalizing i with
  | nil => simp [assignRanks]
  | cons x xs ih =>
    simp only [assignRanks, List.map_cons, List.length_cons,
      List.range'_succ (i + 1) xs.length 1]
    rw [ih (i + 1)]

/-- Rank assignment preserves length. -/
theorem assignRanks_length :
    ∀ (i : Nat) (l : List RepoCombRecord), (assignRanks i l).length = l.length := by
  intro i l
  induction l generalizing i with
  | nil => rfl
  | cons x xs ih => simp [assignRanks, ih]

/-- C5: after a repo-specific run completes, the finalized results list is
sorted in the total order (critical detection rate descending, hallucination
rate ascending as tie-break), and the `rank` fields assigned in that order are
exactly 1..N with no gaps, where N is the number of combinations. -/
theorem repo_sort_and_rank (results : List RepoCombRecord) :
    (finalizeRepoResults results).Pairwise (fun a b =>
        b.criticalDetectionRate < a.criticalDetectionRate ∨
          (a.criticalDetectionRate = b.criticalDetectionRate ∧
            a.hallucinationRate ≤ b.hallucinationRate)) ∧
      (finalizeRepoResults results).map (fun r => r.rank) =
        List.range' 1 results.length ∧
      (finalizeRepoResults results).length = results.length := by
  have hperm := List.mergeSort_perm results repoSortLe
  have hsorted := List.sorted_mergeSort repoSortLe_trans repoSortLe_total results
  refine ⟨assignRanks_pairwise _ hsorted 0, ?_, ?_⟩
  · rw [finalizeRepoResults, assignRanks_map_rank 0, hperm.length_eq]
  · rw [finalizeRepoResults, assignRanks_length, hperm.length_eq]

/-- Closed form of the inner-loop progress writes. -/
theorem innerProgressWrites_eq (ps : List (String × String)) :
    ∀ c : Nat, innerProgressWrites c ps =
      (c + ps.length, List.range' (c + 1) ps.length) := by
  induction ps with
  | nil => intro c; simp [innerProgressWrites]
  | cons p ps ih =>
    intro c
    simp only [innerProgressWrites, ih (c + 1), List.length_cons,
      List.range'_succ (c + 1) ps.length 1, Prod.mk.injEq]
    exact ⟨by omega, trivial⟩

/-- Closed form of the full matrix-walk progress writes. -/
theorem outerProgressWrites_eq (ms : List String) (ps : List (String × String)) :
    ∀ c : Nat, outerProgressWrites c ms ps =
      (c + ms.length * ps.length, List.range' (c + 1) (ms.length * ps.length)) := by
  induction ms with
  | nil => intro c; simp [outerProgressWrites]
  | cons m ms ih =>
    intro c
    simp only [outerProgressWrites, innerProgressWrites_eq ps c, ih (c + ps.length),
      List.length_cons, Prod.mk.injEq]
    constructor
    · rw [Nat.succ_mul]
      omega
    · rw [Nat.succ_mul]
      have h := List.range'_append (c + 1) ps.length (ms.length * ps.length) 1
      rw [one_mul] at h
      rw [show c + ps.length + 1 = c + 1 + ps.length by omega]
      exact h

/-- A unit-step `range'` is a non-decreasing chain. -/
theorem chain'_le_range' (n : Nat) : ∀ s : Nat, List.Chain' (· ≤ ·) (List.range' s n) := by
  induction n with
  | zero => intro s; simp
  | succ n ih =>
    intro s
    rw [List.range'_succ s n 1]
    rcases n with _ | n
    · simp
    · rw [List.range'_succ (s + 1) n 1]
      refine List.chain'_cons.mpr ⟨by omega, ?_⟩
      rw [← List.range'_succ (s + 1) n 1]
      exact ih (s + 1)

/-- Splitting off the final element of a unit-step `range'`. -/
theorem range'_concat (s n : Nat) :
    List.range' s (n + 1) = List.range' s n ++ [s + n] := by
  have h := List.range'_append s n 1 1
  rw [one_mul, List.range'_one] at h
  rw [Nat.add_comm n 1]
  exact h.symm

/-- C7: within one run, in both modes, the sequence of values held by the
`progress` counter is non-decreasing, never exceeds `total` (= model count ×
prompt count), and ends at `total` when the run completes. -/
theorem progress_monotone_bounded (ms : List String) (ps : List (String × String)) :
    (List.Chain' (· ≤ ·) (globalProgressTrace ms ps) ∧
      (∀ x ∈ globalProgressTrace ms ps, x ≤ ms.length * ps.length) ∧
      (globalProgressTrace ms ps).getLast? = some (ms.length * ps.length)) ∧
    (List.Chain' (· ≤ ·) (repoProgressTrace ms ps) ∧
      (∀ x ∈ repoProgressTrace ms ps, x ≤ ms.length * ps.length) ∧
      (repoProgressTrace ms ps).getLast? = some (ms.length * ps.length)) := by
  have houter := outerProgressWrites_eq ms ps 0
  have htrace : globalProgressTrace ms ps =
      List.range' 0 (ms.length * ps.length + 1) ++ [ms.length * ps.length] := by
    simp only [globalProgressTrace, houter,
      List.range'_succ 0 (ms.length * ps.length) 1, List.cons_append]
  have hrepo : repoProgressTrace ms ps = List.range' 0 (ms.length * ps.length + 1) := by
    simp only [repoProgressTrace, houter, List.range'_succ 0 (ms.length * ps.length) 1]
  have hsplit := range'_concat 0 (ms.length * ps.length)
  rw [Nat.zero_add] at hsplit
  refine ⟨⟨?_, ?_, ?_⟩, ?_, ?_, ?_⟩
  · rw [htrace]
    refine List.chain'_append.mpr ⟨chain'_le_range' _ 0, List.chain'_singleton _, ?_⟩
    intro x hx y hy
    rw [List.head?_cons, Option.mem_some_iff] at hy
    subst hy
    rw [hsplit, List.getLast?_concat, Option.mem_some_iff] at hx
    omega
  · intro x hx
    rw [htrace, List.mem_append] at hx
    rcases hx with hx | hx
    · rw [List.mem_range'_1] at hx
      omega
    · rw [List.mem_singleton] at hx
      omega
  · rw [htrace, List.getLast?_concat]
  · rw [hrepo]
    exact chain'_le_range' _ 0
  · intro x hx
    rw [hrepo, List.mem_range'_1] at hx
    omega
  · rw [hrepo, hsplit, List.getLast?_concat]

/-- C8: the reply "YES, this is clearly a problem" (no JSON) parses to
`detected = true`; and every reply on which the JSON path yields no object
and the yes/no prefix heuristics both fail returns `detected = false` with a
non-empty diagnostic reason. -/
theorem judge_parse_fallback :
    parseJudgeResponse "YES, this is clearly a problem" = (true, none) ∧
    (∀ t : String,
      (∀ kvs, pyLoads (judgePreprocess t) ≠ some (Json.obj kvs)) →
      (pyStartsWith (judgePreprocess t) "yes" ||
        pyContains (pyTake (judgePreprocess t) 20) "yes") = false →
      (pyStartsWith (judgePreprocess t) "no" ||
        pyContains (pyTake (judgePreprocess t) 20) "no") = false →
      ∃ s : String, parseJudgeResponse t = (false, some (Json.str s)) ∧ s ≠ "") := by
  constructor
  · rfl
  · intro t hobj hyes hno
    refine ⟨"Could not parse: " ++ pyTake t 100, ?_, ?_⟩
    · cases hL : pyLoads (judgePreprocess t) with
      | none => simp [parseJudgeResponse, hL, hyes, hno]
      | some v =>
        cases v with
        | obj kvs => exact absurd hL (hobj kvs)
        | null => simp [parseJudgeResponse, hL, hyes, hno]
        | bool b => simp [parseJudgeResponse, hL, hyes, hno]
        | num n => simp [parseJudgeResponse, hL, hyes, hno]
        | str s => simp [parseJudgeResponse, hL, hyes, hno]
        | arr xs => simp [parseJudgeResponse, hL, hyes, hno]
    · intro hempty
      have hlen := congrArg String.length hempty
      rw [String.length_append] at hlen
      rw [show ("Could not parse: " : String).length = 17 from rfl] at hlen
      rw [show ("" : String).length = 0 from rfl] at hlen
      omega

/-- Witness for `judge_parse_fallback` on concrete unparseable garbage. -/
theorem judge_parse_fallback_witness :
    ∃ s : String, parseJudgeResponse "xkcd qqqq" = (false, some (Json.str s)) ∧ s ≠ "" :=
  judge_parse_fallback.2 "xkcd qqqq"
    (fun kvs h => by
      rw [show pyLoads (judgePreprocess "xkcd qqqq") = none from rfl] at h
      exact Option.noConfusion h)
    rfl rfl

/-- C10 counterexample: the reply whose JSON object carries `judgment: []`
takes the JSON path and yields `detected = false`, although `[]` is none of
"absent, empty string, false, 0, null" — the claim's list of falsy judgment
values is not exhaustive. -/
theorem json_truthiness_counterexample :
    pyLoads (judgePreprocess "\x7b\"judgment\": []\x7d") =
        some (Json.obj [("judgment", Json.arr [])]) ∧
      (parseJudgeResponse "\x7b\"judgment\": []\x7d").1 = false :=
  ⟨rfl, rfl⟩

/-- C10 amended: on the JSON-object path the parser returns the Python
truthiness of the judgment value (falling back to the `detected` key, then
`False`); any non-empty string — "no", "false", "0" included — is truthy, and
exactly the Python-falsy values (empty string, false, 0, null, empty array,
empty object, or an absent field) give `detected = false`. -/
theorem json_truthiness_policy :
    (∀ (t : String) (kvs : List (String × Json)),
      pyLoads (judgePreprocess t) = some (Json.obj kvs) →
        (parseJudgeResponse t).1 =
          pyTruthy ((objGet kvs "judgment").getD
            ((objGet kvs "detected").getD (Json.bool false)))) ∧
    (∀ s : String, s ≠ "" → pyTruthy (Json.str s) = true) ∧
    (pyTruthy (Json.str "no") = true ∧ pyTruthy (Json.str "false") = true ∧
      pyTruthy (Json.str "0") = true) ∧
    (pyTruthy (Json.str "") = false ∧ pyTruthy (Json.bool false) = false ∧
      pyTruthy (Json.num 0) = false ∧ pyTruthy Json.null = false) ∧
    (pyTruthy (Json.arr []) = false ∧ pyTruthy (Json.obj []) = false) := by
  refine ⟨?_, ?_, ⟨rfl, rfl, rfl⟩, ⟨rfl, rfl, rfl, rfl⟩, ⟨rfl, rfl⟩⟩
  · intro t kvs h
    simp [parseJudgeResponse, h]
  · intro s hs
    simp [pyTruthy, bne_iff_ne, hs]

/-- Witness for `json_truthiness_policy`: judgment "no" is coerced to
`detected = true`. -/
theorem json_truthiness_policy_witness :
    (parseJudgeResponse "\x7b\"judgment\": \"no\"\x7d").1 = true ∧
      pyTruthy (Json.str "x") = true := by
  constructor
  · have h := json_truthiness_policy.1 "\x7b\"judgment\": \"no\"\x7d"
      [("judgment", Json.str "no")] rfl
    rw [h]
    rfl
  · exact json_truthiness_policy.2.1 "x" (by decide)

/-- Witness for `progress_monotone_bounded` on the configured model and
prompt lists. -/
theorem progress_monotone_bounded_witness :
    4 ∈ globalProgressTrace models SYSTEM_PROMPTS ∧
      4 ≤ models.length * SYSTEM_PROMPTS.length ∧
      (globalProgressTrace models SYSTEM_PROMPTS).getLast? =
        some (models.length * SYSTEM_PROMPTS.length) :=
  ⟨by decide,
    (progress_monotone_bounded models SYSTEM_PROMPTS).1.2.1 4 (by decide),
    (progress_monotone_bounded models SYSTEM_PROMPTS).1.2.2⟩
